import Mathlib

/-!
Shallow embedding of the flowwer_vase application core (main module,
src/model/manifold.ts) and proofs about its gesture state machine,
regeneration scheduler, drag-rotation formula, download filename and
hollow-cylinder parameter computation.

Numbers that are JS floats in the source are modelled as rationals;
the JS remainder operator, Math.round and Number.toFixed(0) are modelled
explicitly below.
-/

namespace FlowwerVase

/-- Truncation toward zero, as used by the JS remainder operator:
the quotient in x % y is truncated toward zero. -/
def jsTrunc (q : ℚ) : ℤ := if 0 ≤ q then ⌊q⌋ else -⌊-q⌋

/-- JS remainder x % y (sign follows the dividend x): x - y * trunc (x / y). -/
def jsMod (x y : ℚ) : ℚ := x - y * (jsTrunc (x / y) : ℚ)

/-- JS Math.round: nearest integer, ties toward positive infinity. -/
def jsRound (q : ℚ) : ℤ := ⌊q + 1 / 2⌋

/-- Embedding of the source helper
bound = (v, [lo, hi]) => ((v - lo) % (hi - lo)) + lo
where % is the JS remainder operator. -/
def bound (v lo hi : ℚ) : ℚ := jsMod (v - lo) (hi - lo) + lo

/-- The static orientation type, source type -1 | 0 | 1 of the
PartPosition static variant. -/
inductive Orientation
  | neg1
  | zero
  | pos1
  deriving DecidableEq, Repr

/-- Integer value of an orientation. -/
def Orientation.toInt : Orientation → ℤ
  | .neg1 => -1
  | .zero => 0
  | .pos1 => 1

/-- Embedding of the PartPosition tagged union from the main module.
A THREE.Clock is modelled by its start timestamp (seconds); pixel
coordinates and rotations are rationals. -/
inductive PartPosition
  | static (position : Orientation)
  | willMove (startRot : ℚ) (startPos : ℚ × ℚ) (clock : ℚ) (lastStatic : Orientation)
  | moving (startRot : ℚ) (startPos : ℚ × ℚ) (lastStatic : Orientation) (clock : ℚ) (x : ℚ)
  deriving DecidableEq, Repr

/-- A sampled canvas pixel color, result of getCanvasPixelColor. -/
structure Pixel where
  r : ℕ
  g : ℕ
  b : ℕ
  a : ℕ
  deriving DecidableEq, Repr

/-- The hit-test of readyMouse: the event is ignored when the sampled
pixel satisfies r === 0 && g === 0 && b === 0 && a === 0. -/
def pixelMiss (p : Pixel) : Bool := p.r == 0 && p.g == 0 && p.b == 0 && p.a == 0

/-- Embedding of the readyMouse handler (mousedown / touchstart):
on a miss the handler returns before updating partPositioning; otherwise
a static state becomes will-move (capturing rotation.current, the event
coordinates and a freshly started clock) and a non-static state is kept. -/
def readyMouse (px : Pixel) (rotCurrent : ℚ) (x y : ℚ) (now : ℚ)
    (st : PartPosition) : PartPosition :=
  if pixelMiss px then st
  else
    match st with
    | .willMove sr sp c ls => .willMove sr sp c ls
    | .moving sr sp ls c mx => .moving sr sp ls c mx
    | .static p => .willMove rotCurrent (x, y) now p

/-- Embedding of the trackMouse handler (mousemove / touchmove):
will-move and moving states become moving with the new x coordinate,
a static state is returned unchanged. -/
def trackMouse (x : ℚ) (st : PartPosition) : PartPosition :=
  match st with
  | .willMove sr sp c ls => .moving sr sp ls c x
  | .moving sr sp ls c _ => .moving sr sp ls c x
  | .static p => .static p

/-- Embedding of the toggle helper of forgetMouse:
-1 maps to 0, 0 maps to 1, 1 maps to 0. -/
def toggle : Orientation → Orientation
  | .neg1 => .zero
  | .zero => .pos1
  | .pos1 => .zero

/-- Embedding of the partPositioning.update callback of the forgetMouse
handler (mouseup / touchend). rotCurrent is rotation.current at release,
now the current time in seconds (clock.getElapsedTime() = now - clock). -/
def forgetMouse (rotCurrent : ℚ) (now : ℚ) (st : PartPosition) : PartPosition :=
  match st with
  | .willMove _ _ _ ls => .static (toggle ls)
  | .static p => .static (toggle p)
  | .moving _ sp ls c x =>
      if now - c < 3 / 10 ∧ |x - sp.1| < 15 then .static (toggle ls)
      else
        if jsRound (bound rotCurrent (-1) 1) ≤ -1 then .static .neg1
        else if 1 ≤ jsRound (bound rotCurrent (-1) 1) then .static .pos1
        else .static .zero

/-- Fold of a list of trackMouse events over a gesture state. -/
def applyMoves (xs : List ℚ) (st : PartPosition) : PartPosition :=
  xs.foldl (fun s x => trackMouse x s) st

/-- Embedding of the partPositioning listener branch for moving states:
the live rotation target pushed to the rotation animator, before bounding. -/
def rawRotTarget (canvasWidth startX startRot x : ℚ) : ℚ :=
  (x - startX) * (2 / canvasWidth) - startRot

/-- Embedding of the partPositioning listener branch for moving states:
the live rotation target pushed to the rotation animator with the
immediate option, bound into the animator via bound(v, [-1, 1]). -/
def liveRotTarget (canvasWidth startX startRot x : ℚ) : ℚ :=
  bound (rawRotTarget canvasWidth startX startRot x) (-1) 1

/-!
Regeneration scheduler and frame-loop model. The per-frame scheduling
section of the loop (dimension-animation updates setting
reloadModelNeeded, the reloadModelNow decision, starting reloadModel) and
the completion callbacks of reloadModel are embedded as a step function
on an explicit state. A reloadModel invocation that is started but whose
promise has not settled is counted in the outstanding field; timestamps
are integers (milliseconds, as supplied by requestAnimationFrame).
-/

/-- Explicit scheduler / frame-loop state: the module-level mutable
variables reloadModelNeeded, modelLoadStarted and centerCameraNeeded,
plus instrumentation counting invocations of reloadModel (callsStarted),
unresolved invocations (outstanding) and successful geometry
applications to the scene mesh (meshGen). -/
structure SchedState where
  reloadModelNeeded : Bool
  modelLoadStarted : Option ℤ
  outstanding : ℕ
  callsStarted : ℕ
  centerCameraNeeded : Bool
  meshGen : ℕ
  deriving DecidableEq, Repr

/-- Events driving the scheduler model: a frame tick of the loop at
timestamp nowMillis, with the current frame's outcome of the dimension
animation updates (dimensionsUpdated) and of resizeCanvas; and the two
ways the asynchronous reloadModel invocation can settle (fulfilled, or
rejected by a failure of hollowCylinder). -/
inductive SchedEvent
  | frame (now : ℤ) (dimsUpdated : Bool) (canvasResized : Bool)
  | completeOk
  | completeFail
  deriving DecidableEq, Repr

/-- Embedding of the reloadModelNow condition of the loop:
reloadModelNeeded && (modelLoadStarted === undefined ||
nowMillis - modelLoadStarted > 100). -/
def reloadModelNow (now : ℤ) (needed : Bool) (started : Option ℤ) : Bool :=
  needed &&
    (match started with
     | none => true
     | some t => decide (now - t > 100))

/-- Embedding of one frame tick of the loop restricted to the scheduler
and camera state: dimension-animation updates set reloadModelNeeded,
then reloadModelNow is evaluated and a reloadModel call started if due.
resizeCanvas may set centerCameraNeeded, but the centering step later in
the same frame consumes and clears the flag, so a frame always ends with
centerCameraNeeded false whatever canvasResized was. -/
def frameStep (now : ℤ) (dimsUpdated _canvasResized : Bool) (s : SchedState) : SchedState :=
  if reloadModelNow now (s.reloadModelNeeded || dimsUpdated) s.modelLoadStarted then
    { s with reloadModelNeeded := false
             modelLoadStarted := some now
             outstanding := s.outstanding + 1
             callsStarted := s.callsStarted + 1
             centerCameraNeeded := false }
  else
    { s with reloadModelNeeded := s.reloadModelNeeded || dimsUpdated
             centerCameraNeeded := false }

/-- One step of the scheduler model. Fulfillment of a reloadModel call
runs its then-callback: modelLoadStarted is cleared, centerCameraNeeded
is set, and the new geometry has been applied to the mesh (meshGen).
Rejection (hollowCylinder failed) skips both the geometry application
inside reloadModel and the then-callback, so only the outstanding count
drops; completions with nothing outstanding are no-ops. -/
def schedStep : SchedEvent → SchedState → SchedState
  | .frame now dims resized, s => frameStep now dims resized s
  | .completeOk, s =>
      if s.outstanding = 0 then s
      else
        { s with outstanding := s.outstanding - 1
                 modelLoadStarted := none
                 centerCameraNeeded := true
                 meshGen := s.meshGen + 1 }
  | .completeFail, s =>
      if s.outstanding = 0 then s
      else { s with outstanding := s.outstanding - 1 }

/-- Run of the scheduler model over a list of events. -/
def schedRun (s : SchedState) (evs : List SchedEvent) : SchedState :=
  evs.foldl (fun st e => schedStep e st) s

/-- Initial state of the module: reloadModelNeeded = true,
modelLoadStarted = undefined, centerCameraNeeded = true, no call made. -/
def initSched : SchedState :=
  { reloadModelNeeded := true
    modelLoadStarted := none
    outstanding := 0
    callsStarted := 0
    centerCameraNeeded := true
    meshGen := 0 }

/-- Holds for a frame event that does not observe the in-flight marker
as older than the 100ms stuck-load timeout (such a frame can only start
a call when modelLoadStarted is undefined). -/
def noStuckFrame (s : SchedState) : SchedEvent → Bool
  | .frame now _ _ =>
      match s.modelLoadStarted with
      | none => true
      | some t => decide (now - t ≤ 100)
  | _ => true

/-- Holds for a trace none of whose frames observe the in-flight marker
as older than the 100ms stuck-load timeout. -/
def schedNoStuck : SchedState → List SchedEvent → Bool
  | _, [] => true
  | s, e :: rest => noStuckFrame s e && schedNoStuck (schedStep e s) rest

/-- dimensionsUpdated flag of an event (false for completions). -/
def dimsFlag : SchedEvent → Bool
  | .frame _ d _ => d
  | _ => false

/-- Holds for a frame event at a timestamp at most 100ms after t
(frames only; completions are excluded). -/
def frameWithin (t : ℤ) : SchedEvent → Bool
  | .frame now _ _ => decide (now - t ≤ 100)
  | _ => false

/-!
Download filename and hollow-cylinder parameters.
-/

/-- Model of Number.prototype.toFixed(0): the integer closest to the
argument, ties resolved toward the larger candidate. -/
def jsToFixed0 (q : ℚ) : ℤ := ⌊q + 1 / 2⌋

/-- Embedding of the Dyn.sequence listener of the main module that names
the download file:
cylinder-dxh-wallw-closed.3mf / cylinder-dxh-wallw-open.3mf built with
template fields (r * 2).toFixed(0), h.toFixed(0), w.toFixed(0) and
bottomType = closed ? "closed" : "open". -/
def downloadFilename (h r w : ℚ) (closed : Bool) : String :=
  "cylinder-" ++ toString (jsToFixed0 (r * 2)) ++ "x" ++ toString (jsToFixed0 h)
    ++ "-wall" ++ toString (jsToFixed0 w) ++ "-"
    ++ (if closed then "closed" else "open") ++ ".3mf"

/-- Filename pattern as the specification words it:
cylinder-dxh-wallw-(open or closed).3mf, where d, h, w are the numeric
fields already rounded to integers. -/
def specFilenamePattern (d h w : ℤ) (closed : Bool) : String :=
  "cylinder-" ++ toString d ++ "x" ++ toString h ++ "-wall" ++ toString w
    ++ "-" ++ (if closed then "closed" else "open") ++ ".3mf"

/-- Geometric parameters computed by hollowCylinder
(src/model/manifold.ts): the cavity radius, the cavity height and the z
offset at which the cavity starts. The geometry itself (extrusion and
boolean subtraction) is delegated to the manifold kernel; hollowCylinder
has no rejection path of its own for any parameter values. -/
structure CylinderDims where
  innerRadius : ℚ
  innerHeight : ℚ
  innerStartZ : ℚ
  deriving DecidableEq, Repr

/-- Embedding of the parameter computation of hollowCylinder:
innerRadius = Math.max(0, outerRadius - wallThickness); with a closed
bottom the cavity is shortened by wallThickness and lifted by
wallThickness. -/
def hollowCylinderDims (height outerRadius wallThickness : ℚ)
    (closedBottom : Bool) : CylinderDims :=
  let innerRadius := max 0 (outerRadius - wallThickness)
  let innerHeight := if closedBottom then height - wallThickness else height
  let innerStartZ := if closedBottom then wallThickness else (0 : ℚ)
  ⟨innerRadius, innerHeight, innerStartZ⟩

/-!
Helper lemmas about the scheduler model.
-/

/-- Unfolding of a run over a cons cell. -/
lemma schedRun_cons (s : SchedState) (e : SchedEvent) (evs : List SchedEvent) :
    schedRun s (e :: evs) = schedRun (schedStep e s) evs := rfl

/-- Unfolding of a run over an append. -/
lemma schedRun_append (s : SchedState) (a b : List SchedEvent) :
    schedRun s (a ++ b) = schedRun (schedRun s a) b :=
  List.foldl_append _ _ _ _

/-- Single-flight bound: the number of unresolved reloadModel calls is
zero when the in-flight marker is clear and at most one when set. -/
def singleFlightBound (s : SchedState) : Prop :=
  s.outstanding ≤ if s.modelLoadStarted.isSome then 1 else 0

/-- The single-flight bound is preserved by every step whose frame does
not observe the in-flight marker as past the stuck-load timeout. -/
lemma singleFlightBound_step (e : SchedEvent) (s : SchedState)
    (h : singleFlightBound s) (hns : noStuckFrame s e = true) :
    singleFlightBound (schedStep e s) := by
  cases e with
  | frame now d rz =>
      show singleFlightBound (frameStep now d rz s)
      rw [frameStep]
      by_cases hf : reloadModelNow now (s.reloadModelNeeded || d) s.modelLoadStarted = true
      · rw [if_pos hf]
        have hnone : s.modelLoadStarted = none := by
          cases hst : s.modelLoadStarted with
          | none => rfl
          | some t =>
              exfalso
              rw [noStuckFrame, hst] at hns
              rw [reloadModelNow.eq_def, hst, Bool.and_eq_true] at hf
              have h1 : now - t ≤ 100 := of_decide_eq_true hns
              have h2 : now - t > 100 := of_decide_eq_true hf.2
              omega
        have h0 : s.outstanding = 0 := by
          rw [singleFlightBound, hnone] at h
          simpa using h
        rw [singleFlightBound]
        simp [h0]
      · rw [if_neg hf]
        exact h
  | completeOk =>
      by_cases h0 : s.outstanding = 0
      · simpa [schedStep, h0] using h
      · have hle : s.outstanding ≤ 1 := by
          refine le_trans h ?_
          by_cases hs : s.modelLoadStarted.isSome <;> simp [hs]
        simp only [schedStep]
        rw [if_neg h0, singleFlightBound]
        simp
        omega
  | completeFail =>
      by_cases h0 : s.outstanding = 0
      · simpa [schedStep, h0] using h
      · simp only [schedStep]
        rw [if_neg h0, singleFlightBound]
        exact le_trans (Nat.sub_le _ _) h

/-- The single-flight bound is preserved by every trace none of whose
frames observes the in-flight marker as past the stuck-load timeout. -/
lemma singleFlightBound_run (evs : List SchedEvent) :
    ∀ s : SchedState, singleFlightBound s → schedNoStuck s evs = true →
      singleFlightBound (schedRun s evs) := by
  induction evs with
  | nil => intro s h _; exact h
  | cons e rest ih =>
      intro s h hns
      rw [schedNoStuck, Bool.and_eq_true] at hns
      rw [schedRun_cons]
      exact ih _ (singleFlightBound_step e s h hns.1) hns.2

/-!
Claims about the scheduler.
-/

/-- C1 (amended): in every state reachable from startup by a trace in
which no frame observes the in-flight marker as older than the 100ms
stuck-load timeout, at most one reloadModel call started by the loop is
unresolved. (When a frame does see the marker past 100ms, the loop
deliberately starts a second concurrent call; see the counterexample.) -/
theorem single_flight_without_timeout (evs : List SchedEvent)
    (h : schedNoStuck initSched evs = true) :
    (schedRun initSched evs).outstanding ≤ 1 := by
  have hinv : singleFlightBound (schedRun initSched evs) :=
    singleFlightBound_run evs initSched (by rw [singleFlightBound]; simp [initSched]) h
  refine le_trans hinv ?_
  by_cases hs : (schedRun initSched evs).modelLoadStarted.isSome <;> simp [hs]

/-- C1 witness: a concrete quick trace (call started at frame 0,
fulfilled, then a parameter change at frame 50) stays single-flight. -/
theorem single_flight_without_timeout_witness :
    schedNoStuck initSched
        [.frame 0 false false, .completeOk, .frame 50 true false] = true ∧
    (schedRun initSched
        [.frame 0 false false, .completeOk, .frame 50 true false]).outstanding ≤ 1 :=
  ⟨by decide, single_flight_without_timeout _ (by decide)⟩

/-- C1 counterexample: the loop starts a call at frame 0; a parameter
change arrives at frame 50; the call is still unresolved at frame 151,
past the 100ms stuck-load timeout, so the loop starts a second call
while the first is still outstanding: two reloadModel calls started by
the loop are unresolved at once. -/
theorem single_flight_counterexample :
    (schedRun initSched
        [.frame 0 false false, .frame 50 true false,
         .frame 151 false false]).outstanding = 2 := by
  decide

/-- While a call started at time t is outstanding, frames at most 100ms
after t never start a new call: the marker, the outstanding count and
the call count are unchanged, and the reload flag accumulates the
dimensionsUpdated flags of the frames. -/
lemma run_while_outstanding (evs : List SchedEvent) :
    ∀ (s : SchedState) (t : ℤ), s.modelLoadStarted = some t →
      evs.all (frameWithin t) = true →
      (schedRun s evs).modelLoadStarted = some t ∧
      (schedRun s evs).outstanding = s.outstanding ∧
      (schedRun s evs).callsStarted = s.callsStarted ∧
      (schedRun s evs).reloadModelNeeded
        = (s.reloadModelNeeded || evs.any dimsFlag) := by
  induction evs with
  | nil => intro s t hst _; simp [schedRun, hst]
  | cons e rest ih =>
      intro s t hst hall
      rw [List.all_cons, Bool.and_eq_true] at hall
      obtain ⟨he, hrest⟩ := hall
      cases e with
      | completeOk => exact absurd he Bool.false_ne_true
      | completeFail => exact absurd he Bool.false_ne_true
      | frame now d rz =>
          have h100 : now - t ≤ 100 := of_decide_eq_true he
          have hnofire :
              reloadModelNow now (s.reloadModelNeeded || d) s.modelLoadStarted
                = false := by
            rw [reloadModelNow.eq_def, hst]
            show ((s.reloadModelNeeded || d) && decide (now - t > 100)) = false
            rw [decide_eq_false (by omega : ¬ now - t > 100), Bool.and_false]
          have hstep : schedStep (.frame now d rz) s
              = { s with reloadModelNeeded := s.reloadModelNeeded || d
                         centerCameraNeeded := false } := by
            show frameStep now d rz s = _
            rw [frameStep, hnofire]
            rfl
          rw [schedRun_cons, hstep]
          obtain ⟨h1, h2, h3, h4⟩ :=
            ih { s with reloadModelNeeded := s.reloadModelNeeded || d
                        centerCameraNeeded := false } t hst hrest
          refine ⟨h1, h2, h3, ?_⟩
          rw [h4]
          show ((s.reloadModelNeeded || d) || rest.any dimsFlag)
            = (s.reloadModelNeeded || List.any (.frame now d rz :: rest) dimsFlag)
          rw [List.any_cons]
          show ((s.reloadModelNeeded || d) || rest.any dimsFlag)
            = (s.reloadModelNeeded || (d || rest.any dimsFlag))
          rw [Bool.or_assoc]

/-- Events that do not set the reload flag (frames whose dimension
animations are settled, and completions) never start a call while the
reload flag is clear, and leave the flag clear. -/
lemma run_quiet (evs : List SchedEvent) :
    ∀ s : SchedState, s.reloadModelNeeded = false →
      evs.all (fun e => !dimsFlag e) = true →
      (schedRun s evs).callsStarted = s.callsStarted ∧
      (schedRun s evs).reloadModelNeeded = false := by
  induction evs with
  | nil => intro s h _; exact ⟨rfl, h⟩
  | cons e rest ih =>
      intro s hneeded hall
      rw [List.all_cons, Bool.and_eq_true] at hall
      obtain ⟨he, hrest⟩ := hall
      have hstep : (schedStep e s).callsStarted = s.callsStarted ∧
          (schedStep e s).reloadModelNeeded = false := by
        cases e with
        | frame now d rz =>
            have hd : d = false := by
              rw [dimsFlag] at he
              simpa using he
            subst hd
            have hnofire :
                reloadModelNow now (s.reloadModelNeeded || false) s.modelLoadStarted
                  = false := by
              rw [reloadModelNow.eq_def, hneeded]
              rfl
            constructor
            · show (frameStep now false rz s).callsStarted = s.callsStarted
              rw [frameStep, hnofire]
              rfl
            · show (frameStep now false rz s).reloadModelNeeded = false
              rw [frameStep, hnofire]
              show (s.reloadModelNeeded || false) = false
              rw [Bool.or_false]
              exact hneeded
        | completeOk =>
            by_cases h0 : s.outstanding = 0 <;>
              simp [schedStep, h0, hneeded]
        | completeFail =>
            by_cases h0 : s.outstanding = 0 <;>
              simp [schedStep, h0, hneeded]
      rw [schedRun_cons]
      obtain ⟨hc, hn⟩ := hstep
      obtain ⟨hc2, hn2⟩ := ih (schedStep e s) hn hrest
      exact ⟨by rw [hc2, hc], hn2⟩

/-- C2 (amended): if, while one kernel call started at time t is
outstanding, N parameter changes (N at least 1) arrive at frames that
all observe the outstanding call as at most 100ms old, then no
additional call starts before the outstanding one completes, and exactly
one additional call starts afterwards (at the first frame after
completion), with no further calls on later change-free events — never
N additional calls and never zero. (If the outstanding call instead
lives past the 100ms stuck-load timeout, the single additional call
starts before the completion and none after it; see the
counterexample.) -/
theorem one_reload_after_completion (s : SchedState) (t : ℤ) (N : ℕ)
    (evs : List SchedEvent) (m : ℤ) (rz : Bool) (post : List SchedEvent)
    (hst : s.modelLoadStarted = some t)
    (hout : s.outstanding = 1)
    (hneeded : s.reloadModelNeeded = false)
    (hwin : evs.all (frameWithin t) = true)
    (hN : evs.countP (fun e => dimsFlag e) = N)
    (hN1 : 1 ≤ N)
    (hquiet : post.all (fun e => !dimsFlag e) = true) :
    (schedRun s evs).callsStarted = s.callsStarted ∧
    (schedRun s (evs ++ .completeOk :: .frame m false rz :: post)).callsStarted
      = s.callsStarted + 1 := by
  obtain ⟨h1, h2, h3, h4⟩ := run_while_outstanding evs s t hst hwin
  refine ⟨h3, ?_⟩
  have hany : evs.any dimsFlag = true := by
    rw [List.any_eq_true]
    have hpos : 0 < evs.countP (fun e => dimsFlag e) := by omega
    obtain ⟨a, ha, hpa⟩ := List.countP_pos_iff.mp hpos
    exact ⟨a, ha, hpa⟩
  have hn1 : (schedRun s evs).reloadModelNeeded = true := by
    rw [h4, hneeded, hany]
    rfl
  have hno : ¬ (schedRun s evs).outstanding = 0 := by
    rw [h2, hout]
    omega
  have e2 : schedStep .completeOk (schedRun s evs)
      = { schedRun s evs with
            outstanding := (schedRun s evs).outstanding - 1
            modelLoadStarted := none
            centerCameraNeeded := true
            meshGen := (schedRun s evs).meshGen + 1 } := by
    simp only [schedStep]
    rw [if_neg hno]
  have hfire : reloadModelNow m
      ((schedStep .completeOk (schedRun s evs)).reloadModelNeeded || false)
      (schedStep .completeOk (schedRun s evs)).modelLoadStarted = true := by
    rw [e2]
    show reloadModelNow m ((schedRun s evs).reloadModelNeeded || false) none = true
    rw [hn1]
    rfl
  have e3 : (schedStep (.frame m false rz)
        (schedStep .completeOk (schedRun s evs))).callsStarted
      = (schedRun s evs).callsStarted + 1 := by
    show (frameStep m false rz _).callsStarted = _
    rw [frameStep, hfire]
    show (schedStep .completeOk (schedRun s evs)).callsStarted + 1
      = (schedRun s evs).callsStarted + 1
    rw [e2]
  have e3n : (schedStep (.frame m false rz)
        (schedStep .completeOk (schedRun s evs))).reloadModelNeeded = false := by
    show (frameStep m false rz _).reloadModelNeeded = false
    rw [frameStep, hfire]
    rfl
  rw [schedRun_append, schedRun_cons, schedRun_cons]
  obtain ⟨hq, _⟩ := run_quiet post _ e3n hquiet
  rw [hq, e3, h3]

/-- C2 witness: with a call outstanding since time 0, two parameter
changes at frames 16 and 32, completion, then a frame at 60 and quiet
later events: no call starts before the completion and exactly one
starts after it. -/
theorem one_reload_after_completion_witness :
    (schedRun ⟨false, some 0, 1, 1, false, 0⟩
        [.frame 16 true false, .frame 32 true false]).callsStarted = 1 ∧
    (schedRun ⟨false, some 0, 1, 1, false, 0⟩
        ([.frame 16 true false, .frame 32 true false]
          ++ .completeOk :: .frame 60 false false ::
            [.frame 80 false false, .completeOk])).callsStarted = 1 + 1 :=
  one_reload_after_completion ⟨false, some 0, 1, 1, false, 0⟩ 0 2
    [.frame 16 true false, .frame 32 true false] 60 false
    [.frame 80 false false, .completeOk]
    rfl rfl rfl (by decide) (by decide) (by decide) (by decide)

/-- C2 counterexample: a call starts at frame 0 and one parameter change
arrives at frame 50 while it is outstanding (N = 1). The call is still
unresolved at frame 150, so the stuck-load timeout starts the one
additional call before the outstanding call completes (two calls in
total); after the completion no further call ever starts: the additional
calls made after the outstanding one completes number zero, not one. -/
theorem one_reload_after_completion_counterexample :
    (schedRun initSched
        [.frame 0 false false, .frame 50 true false,
         .frame 150 false false]).callsStarted = 2 ∧
    (schedRun initSched
        ([.frame 0 false false, .frame 50 true false, .frame 150 false false]
          ++ [.completeOk, .frame 200 false false,
              .frame 300 false false])).callsStarted = 2 := by
  exact ⟨by decide, by decide⟩

/-- C8 (amended): when the kernel call inside reloadModel fails, no
geometry is applied to the scene mesh and neither scheduler flag
changes; the in-flight marker is NOT cleared (the rejection bypasses the
then-callback), but the loop keeps running and a parameter change
arriving at a frame once the 100ms stuck-load timeout has elapsed still
re-triggers exactly one new kernel call. On success the marker is
cleared, the camera-recenter flag is set and the geometry is applied. -/
theorem kernel_failure_handling (s : SchedState) (h0 : 0 < s.outstanding) :
    (schedStep .completeFail s).meshGen = s.meshGen ∧
    (schedStep .completeFail s).modelLoadStarted = s.modelLoadStarted ∧
    (schedStep .completeFail s).reloadModelNeeded = s.reloadModelNeeded ∧
    (∀ t now : ℤ, s.modelLoadStarted = some t → 100 < now - t →
      (schedStep (.frame now true false)
          (schedStep .completeFail s)).callsStarted = s.callsStarted + 1) ∧
    (schedStep .completeOk s).modelLoadStarted = none ∧
    (schedStep .completeOk s).centerCameraNeeded = true ∧
    (schedStep .completeOk s).meshGen = s.meshGen + 1 := by
  have hno : ¬ s.outstanding = 0 := by omega
  have ef : schedStep .completeFail s = { s with outstanding := s.outstanding - 1 } := by
    simp only [schedStep]
    rw [if_neg hno]
  have eo : schedStep .completeOk s
      = { s with outstanding := s.outstanding - 1
                 modelLoadStarted := none
                 centerCameraNeeded := true
                 meshGen := s.meshGen + 1 } := by
    simp only [schedStep]
    rw [if_neg hno]
  refine ⟨by rw [ef], by rw [ef], by rw [ef], ?_, by rw [eo], by rw [eo], by rw [eo]⟩
  intro t now hst h100
  rw [ef]
  show (frameStep now true false { s with outstanding := s.outstanding - 1 }).callsStarted
    = s.callsStarted + 1
  have hfire : reloadModelNow now
      (({ s with outstanding := s.outstanding - 1 } : SchedState).reloadModelNeeded || true)
      ({ s with outstanding := s.outstanding - 1 } : SchedState).modelLoadStarted = true := by
    show reloadModelNow now (s.reloadModelNeeded || true) s.modelLoadStarted = true
    rw [reloadModelNow.eq_def, hst, Bool.or_true]
    show (true && decide (now - t > 100)) = true
    rw [Bool.true_and]
    exact decide_eq_true (by omega)
  rw [frameStep, hfire]
  rfl

/-- C8 witness: in the state with one outstanding call started at time
0, a failure leaves the marker at time 0 and the geometry untouched, a
parameter change at frame 200 starts one new call, and a success clears
the marker and raises the camera-recenter flag. -/
theorem kernel_failure_handling_witness :
    0 < (⟨false, some 0, 1, 1, false, 0⟩ : SchedState).outstanding ∧
    (schedStep .completeFail ⟨false, some 0, 1, 1, false, 0⟩).meshGen = 0 ∧
    (schedStep .completeFail ⟨false, some 0, 1, 1, false, 0⟩).modelLoadStarted = some 0 ∧
    (schedStep (.frame 200 true false)
        (schedStep .completeFail ⟨false, some 0, 1, 1, false, 0⟩)).callsStarted = 2 ∧
    (schedStep .completeOk ⟨false, some 0, 1, 1, false, 0⟩).modelLoadStarted = none ∧
    (schedStep .completeOk ⟨false, some 0, 1, 1, false, 0⟩).centerCameraNeeded = true :=
  ⟨by decide,
    (kernel_failure_handling ⟨false, some 0, 1, 1, false, 0⟩ (by decide)).1,
    (kernel_failure_handling ⟨false, some 0, 1, 1, false, 0⟩ (by decide)).2.1,
    (kernel_failure_handling ⟨false, some 0, 1, 1, false, 0⟩ (by decide)).2.2.2.1
      0 200 rfl (by decide),
    (kernel_failure_handling ⟨false, some 0, 1, 1, false, 0⟩ (by decide)).2.2.2.2.1,
    (kernel_failure_handling ⟨false, some 0, 1, 1, false, 0⟩ (by decide)).2.2.2.2.2.1⟩

/-- C8 counterexample: after the call started at frame 0 fails, the
in-flight marker still holds the start timestamp: it is not cleared, so
the claim that the marker is cleared on failure is false on the code
(the then-callback clearing it runs only on fulfillment). -/
theorem kernel_failure_handling_counterexample :
    (schedStep .completeFail
        (schedRun initSched [.frame 0 false false])).modelLoadStarted = some 0 ∧
    (schedStep .completeFail
        (schedRun initSched [.frame 0 false false])).modelLoadStarted ≠ none := by
  exact ⟨by decide, by decide⟩

/-!
Claims about the download filename and the cylinder parameters.
-/

/-- C6: the download filename equals the spec pattern built from the
rounded diameter 2r, height and wall thickness and the open/closed
bottom type; at the tuple (height 80, outer radius 25, wall 3, closed
bottom) it is cylinder-50x80-wall3-closed.3mf. -/
theorem download_filename_pattern :
    (∀ (h r w : ℚ) (c : Bool),
      downloadFilename h r w c
        = specFilenamePattern (jsToFixed0 (2 * r)) (jsToFixed0 h) (jsToFixed0 w) c) ∧
    downloadFilename 80 25 3 true = "cylinder-50x80-wall3-closed.3mf" := by
  constructor
  · intro h r w c
    rw [downloadFilename, specFilenamePattern, mul_comm r 2]
  · rw [downloadFilename,
      show jsToFixed0 ((25 : ℚ) * 2) = 50 from by rw [jsToFixed0]; norm_num,
      show jsToFixed0 (80 : ℚ) = 80 from by rw [jsToFixed0]; norm_num,
      show jsToFixed0 (3 : ℚ) = 3 from by rw [jsToFixed0]; norm_num]
    rfl

/-- C7: for every parameter tuple, the cavity radius computed by
hollowCylinder is max(0, outerRadius - wallThickness); when the wall
thickness reaches or exceeds the outer radius it is clamped to 0 (a
fully solid cylinder); hollowCylinderDims is a total function, matching
the absence of any rejection path in hollowCylinder. -/
theorem inner_radius_clamped (h r w : ℚ) (c : Bool) :
    (hollowCylinderDims h r w c).innerRadius = max 0 (r - w) ∧
    (r ≤ w → (hollowCylinderDims h r w c).innerRadius = 0) := by
  refine ⟨rfl, fun hrw => ?_⟩
  show max 0 (r - w) = 0
  exact max_eq_left (by linarith)

/-- C7 witness: at height 50, outer radius 25, wall thickness 30 the
inner radius is clamped to 0 and the computation succeeds. -/
theorem inner_radius_clamped_witness :
    (hollowCylinderDims 50 25 30 true).innerRadius = max 0 (25 - 30) ∧
    (25 : ℚ) ≤ 30 ∧
    (hollowCylinderDims 50 25 30 true).innerRadius = 0 :=
  ⟨(inner_radius_clamped 50 25 30 true).1, by norm_num,
    (inner_radius_clamped 50 25 30 true).2 (by norm_num)⟩

/-!
Helper lemmas about the gesture machine.
-/

/-- Tracking a nonempty run of pointer moves from a moving state keeps
every captured field and records the last x coordinate. -/
lemma applyMoves_moving (xs : List ℚ) (sr : ℚ) (sp : ℚ × ℚ) (ls : Orientation)
    (c x0 : ℚ) :
    applyMoves xs (.moving sr sp ls c x0) = .moving sr sp ls c (xs.getLastD x0) := by
  induction xs generalizing x0 with
  | nil => rfl
  | cons a l ih =>
      rw [List.getLastD_cons]
      exact ih a

/-- The value of bound on the rotation range shifts by an even integer
when its argument shifts by 2. -/
lemma bound_add_two (v : ℚ) :
    ∃ k : ℤ, bound (v + 2) (-1) 1 - bound v (-1) 1 = 2 * k := by
  refine ⟨1 - jsTrunc ((v + 2 - -1) / (1 - -1)) + jsTrunc ((v - -1) / (1 - -1)), ?_⟩
  rw [bound, bound, jsMod, jsMod]
  push_cast
  ring

/-- Evaluation of bound at the argument -2 produced by a leftward
full-width drag starting at rotation 0. -/
lemma bound_neg_two : bound (-2 : ℚ) (-1) 1 = -2 := by
  rw [bound, jsMod,
    show jsTrunc ((-2 - -1) / (1 - -1)) = 0 from by
      rw [jsTrunc, if_neg (by norm_num)]
      norm_num]
  norm_num

/-- C3: a pointer-down hitting the part (non-miss pixel) followed by a
pointer-up within 300ms and with less than 15px net horizontal
displacement always yields the static state whose orientation is the
toggle of the pre-down orientation, through any number of intermediate
moving entries; in particular two consecutive taps starting from
orientation 0 give the orientation sequence 0, 1, 0. -/
theorem tap_toggles_orientation :
    (∀ (px : Pixel) (p : Orientation) (rc rc2 x y t0 t1 : ℚ) (xs : List ℚ),
      pixelMiss px = false →
      t1 - t0 < 3 / 10 →
      |xs.getLastD x - x| < 15 →
      forgetMouse rc2 t1 (applyMoves xs (readyMouse px rc x y t0 (.static p)))
        = .static (toggle p)) ∧
    (forgetMouse 0 0 (readyMouse ⟨9, 9, 9, 255⟩ 0 3 4 0 (.static .zero))
        = .static .pos1 ∧
      forgetMouse 0 1
          (readyMouse ⟨9, 9, 9, 255⟩ 0 3 4 1
            (forgetMouse 0 0 (readyMouse ⟨9, 9, 9, 255⟩ 0 3 4 0 (.static .zero))))
        = .static .zero) := by
  refine ⟨?_, by rfl, by rfl⟩
  intro px p rc rc2 x y t0 t1 xs hmiss htime hdx
  have hready : readyMouse px rc x y t0 (.static p) = .willMove rc (x, y) t0 p := by
    rw [readyMouse.eq_def, hmiss]
    rfl
  rw [hready]
  cases xs with
  | nil => rfl
  | cons a l =>
      have hmv : applyMoves (a :: l) (PartPosition.willMove rc (x, y) t0 p)
          = .moving rc (x, y) p t0 (l.getLastD a) := by
        show applyMoves l (trackMouse a (PartPosition.willMove rc (x, y) t0 p))
          = .moving rc (x, y) p t0 (l.getLastD a)
        rw [trackMouse]
        exact applyMoves_moving l rc (x, y) p t0 a
      rw [hmv, forgetMouse]
      rw [List.getLastD_cons] at hdx
      rw [if_pos ⟨htime, hdx⟩]

/-- C3 witness: a concrete tap with one intermediate move, released
after 0.1 seconds and 5 pixels away from the down position, toggles
orientation 0 to orientation 1. -/
theorem tap_toggles_orientation_witness :
    pixelMiss ⟨9, 9, 9, 255⟩ = false ∧
    (1 / 10 : ℚ) - 0 < 3 / 10 ∧
    |([(105 : ℚ)]).getLastD 100 - 100| < 15 ∧
    forgetMouse 0 (1 / 10)
        (applyMoves [(105 : ℚ)] (readyMouse ⟨9, 9, 9, 255⟩ 0 100 50 0 (.static .zero)))
      = .static (toggle .zero) :=
  ⟨rfl, by norm_num, by norm_num,
    tap_toggles_orientation.1 ⟨9, 9, 9, 255⟩ .zero 0 0 100 50 0 (1 / 10) [105]
      rfl (by norm_num) (by norm_num)⟩

/-- C4: dragging the pointer horizontally by exactly one canvas width
shifts the raw live rotation target by exactly 2 (one full revolution of
the part, whose scene rotation is the target times pi), and the bound
target pushed into the rotation animator changes by an even integer,
i.e. is unchanged modulo the wraparound period of the range [-1, 1]. -/
theorem full_width_drag_full_unit (w sx sr x : ℚ) (hw : 0 < w) :
    rawRotTarget w sx sr (x + w) - rawRotTarget w sx sr x = 2 ∧
    ∃ k : ℤ, liveRotTarget w sx sr (x + w) - liveRotTarget w sx sr x = 2 * k := by
  have hw' : w ≠ 0 := ne_of_gt hw
  have hraw : rawRotTarget w sx sr (x + w) = rawRotTarget w sx sr x + 2 := by
    rw [rawRotTarget, rawRotTarget]
    field_simp
    ring
  constructor
  · rw [hraw]; ring
  · rw [liveRotTarget, liveRotTarget, hraw]
    exact bound_add_two _

/-- C4 witness: on a 100px-wide canvas, a drag from x = 0 to x = 100
starting at rotation 0 changes the raw target by 2 and the bound target
by an even integer. -/
theorem full_width_drag_full_unit_witness :
    (0 : ℚ) < 100 ∧
    (rawRotTarget 100 0 0 (0 + 100) - rawRotTarget 100 0 0 0 = 2 ∧
      ∃ k : ℤ, liveRotTarget 100 0 0 (0 + 100) - liveRotTarget 100 0 0 0 = 2 * k) :=
  ⟨by norm_num, full_width_drag_full_unit 100 0 0 0 (by norm_num)⟩

/-- C5: evaluation of the drag listener at the failing input. A leftward
drag of one full canvas width starting at rotation 0 produces the raw
value v = -2, and bound(v, [-1, 1]) returns -2 itself: the JS remainder
keeps the sign of its dividend, so the value pushed to the rotation
animator lies strictly below -1, contradicting the documented contract
that bound wraps every input into [-1, 1]. -/
theorem bound_output_escapes_range :
    liveRotTarget 100 0 0 (-100) = -2 ∧ liveRotTarget 100 0 0 (-100) < -1 := by
  have hraw : rawRotTarget 100 0 0 (-100) = -2 := by
    rw [rawRotTarget]
    norm_num
  have hb : liveRotTarget 100 0 0 (-100) = -2 := by
    rw [liveRotTarget, hraw, bound_neg_two]
  exact ⟨hb, by rw [hb]; norm_num⟩

/-- C9 (amended): a pointer-down whose sampled pixel has all four
components zero is treated as a miss and leaves the gesture state
unchanged, whatever that state is. -/
theorem transparent_pixel_down_ignored (rc x y t : ℚ) (st : PartPosition) :
    readyMouse ⟨0, 0, 0, 0⟩ rc x y t st = st := by
  rw [readyMouse.eq_def]
  rfl

/-- C9 counterexample: a pixel with alpha 0 but a nonzero red component
is not treated as a miss: the pointer-down transitions the static state
to will-move, so the claim as stated (alpha 0 alone implies miss) is
false on the code. -/
theorem transparent_pixel_down_ignored_counterexample :
    readyMouse ⟨255, 0, 0, 0⟩ 0 0 0 0 (.static .zero) ≠ .static .zero := by
  intro h
  have hpx : pixelMiss ⟨255, 0, 0, 0⟩ = false := rfl
  rw [readyMouse.eq_def, hpx] at h
  exact PartPosition.noConfusion h

/-- C10: the pointer-up handler yields a static state from every prior
gesture state; a pointer-up received in the static state itself toggles
the orientation; and a moving state whose bound rotation value lies
outside [-1, 1] (here bound gives -2) is clamped onto the valid
orientation -1. -/
theorem forget_always_static :
    (∀ (rc now : ℚ) (st : PartPosition), ∃ p, forgetMouse rc now st = .static p) ∧
    (∀ (rc now : ℚ) (q : Orientation),
      forgetMouse rc now (.static q) = .static (toggle q)) ∧
    forgetMouse (-2) 1 (.moving 0 (0, 0) .zero 0 20) = .static .neg1 := by
  refine ⟨?_, fun rc now q => rfl, ?_⟩
  · intro rc now st
    cases st with
    | static p => exact ⟨toggle p, rfl⟩
    | willMove sr sp c ls => exact ⟨toggle ls, rfl⟩
    | moving sr sp ls c x =>
        rw [forgetMouse]
        by_cases h1 : now - c < 3 / 10 ∧ |x - sp.1| < 15
        · rw [if_pos h1]; exact ⟨toggle ls, rfl⟩
        · rw [if_neg h1]
          by_cases h2 : jsRound (bound rc (-1) 1) ≤ -1
          · rw [if_pos h2]; exact ⟨.neg1, rfl⟩
          · rw [if_neg h2]
            by_cases h3 : 1 ≤ jsRound (bound rc (-1) 1)
            · rw [if_pos h3]; exact ⟨.pos1, rfl⟩
            · rw [if_neg h3]; exact ⟨.zero, rfl⟩
  · rw [forgetMouse, if_neg (by norm_num), if_pos]
    rw [bound_neg_two, jsRound]
    norm_num

end FlowwerVase
